import Mathlib

/-!
Verification of the request-admission / abuse-control layer of the Nexus
repository: the Express security middleware (`adk-nexus/src/securitymiddleware.ts`),
the edge request interceptor (the Next.js `middleware` file), the duplicate
middleware file containing a second `apiKeyGuard` / `concurrencyGuard`, and the
route registration in `adk-nexus/src/server.ts`.

JavaScript `Map` objects are modelled as insertion-ordered association lists;
`Map.set` updates an existing key in place (keeping its position) and otherwise
appends, `Map.delete` removes the entry, and iteration order is list order —
matching the JS `Map` iteration contract.  Header values are modelled as
`Option String` (Node folds duplicate headers into one comma-joined string for
all headers relevant here), and JS truthiness of a string-or-absent value is
`truthy`: absent and the empty string are falsy.  Times are naturals (ms).
-/

set_option autoImplicit false

namespace Nexus

/-- JS truthiness of a `string | undefined | null` value: absent or `""` is falsy. -/
def truthy : Option String → Bool
  | none => false
  | some s => decide (¬ s = "")

/-- Whether the first list is a prefix of the second. -/
def startsList : List Char → List Char → Bool
  | [], _ => true
  | _ :: _, [] => false
  | a :: ps, b :: ss => a = b && startsList ps ss

/-- Whether the first list occurs as a contiguous sublist of the second. -/
def isSub : List Char → List Char → Bool
  | needle, [] => startsList needle []
  | needle, c :: rest => startsList needle (c :: rest) || isSub needle rest

/-- JS `String.prototype.includes`: substring test. -/
def includes (hay needle : String) : Bool :=
  isSub needle.data hay.data

/-- JS `String.prototype.startsWith`. -/
def strStarts (s p : String) : Bool :=
  startsList p.data s.data

/-- JS `String.prototype.endsWith`. -/
def strEnds (s p : String) : Bool :=
  startsList p.data.reverse s.data.reverse

/-- JS `String.prototype.toLowerCase` (character-wise lowering). -/
def lowerStr (s : String) : String :=
  ⟨s.data.map Char.toLower⟩

/-- JS `String.prototype.trim`: strip whitespace from both ends. -/
def trimList (cs : List Char) : List Char :=
  ((cs.dropWhile Char.isWhitespace).reverse.dropWhile Char.isWhitespace).reverse

def trimStr (s : String) : String :=
  ⟨trimList s.data⟩

/-- Everything before the first comma (the whole string if it has no comma):
`s.split(",")[0]`. -/
def beforeComma : List Char → List Char
  | [] => []
  | c :: cs => if c = ',' then [] else c :: beforeComma cs

/-- One rate-limit record: `{ count, resetTime }`. -/
structure RateLimitEntry where
  count : Nat
  resetTime : Nat
deriving DecidableEq, Repr

/-- The rate-limit store: a JS `Map<string, RateLimitEntry>` as an
insertion-ordered association list. -/
abbrev RLStore := List (String × RateLimitEntry)

/-- JS `Map.get`: first (and, for genuine map states, only) binding of the key. -/
def mapGet : RLStore → String → Option RateLimitEntry
  | [], _ => none
  | p :: rest, k => if p.1 = k then some p.2 else mapGet rest k

/-- JS `Map.set`: update an existing key in place (keeping its insertion
position), else append at the end. -/
def mapSet : RLStore → String → RateLimitEntry → RLStore
  | [], k, v => [(k, v)]
  | p :: rest, k, v => if p.1 = k then (k, v) :: rest else p :: mapSet rest k v

/-- JS `Map.delete`. -/
def mapDelete (m : RLStore) (k : String) : RLStore :=
  m.filter (fun p => decide (¬ p.1 = k))

@[simp] theorem mapGet_mapSet_self (m : RLStore) (k : String) (v : RateLimitEntry) :
    mapGet (mapSet m k v) k = some v := by
  induction m with
  | nil => simp [mapSet, mapGet]
  | cons p rest ih =>
    by_cases h : p.1 = k
    · simp [mapSet, mapGet, h]
    · simp [mapSet, mapGet, h, ih]

/-- Outcome of one rate-limiter check, `{ allowed, retryAfter? }`. -/
structure RateLimitResult where
  allowed : Bool
  retryAfter : Option Nat
deriving DecidableEq, Repr

/-- The rate limiter step (`checkRateLimit` in the edge file; the Express
`rateLimitGuard` runs the identical logic with its own constants).  On a fresh
or expired key, store `{count 1, resetTime now + window}` and allow; otherwise
increment the stored count (the JS code mutates the entry held by the map, so
the incremented count persists even on denial) and deny once the new count
exceeds the maximum, reporting `ceil((resetTime - now)/1000)` seconds. -/
def checkRateLimit (maxReq window now : Nat) (ip : String) (m : RLStore) :
    RateLimitResult × RLStore :=
  match mapGet m ip with
  | none => (⟨true, none⟩, mapSet m ip ⟨1, now + window⟩)
  | some e =>
    if now > e.resetTime then
      (⟨true, none⟩, mapSet m ip ⟨1, now + window⟩)
    else if e.count + 1 > maxReq then
      (⟨false, some ((e.resetTime - now + 999) / 1000)⟩,
        mapSet m ip ⟨e.count + 1, e.resetTime⟩)
    else
      (⟨true, none⟩, mapSet m ip ⟨e.count + 1, e.resetTime⟩)

theorem checkRateLimit_fresh (maxReq window now : Nat) (ip : String) (m : RLStore)
    (hget : mapGet m ip = none) :
    checkRateLimit maxReq window now ip m =
      (⟨true, none⟩, mapSet m ip ⟨1, now + window⟩) := by
  simp [checkRateLimit, hget]

theorem checkRateLimit_expired (maxReq window now : Nat) (ip : String) (m : RLStore)
    (e : RateLimitEntry) (hget : mapGet m ip = some e) (h : now > e.resetTime) :
    checkRateLimit maxReq window now ip m =
      (⟨true, none⟩, mapSet m ip ⟨1, now + window⟩) := by
  simp [checkRateLimit, hget, h]

theorem checkRateLimit_denied (maxReq window now : Nat) (ip : String) (m : RLStore)
    (e : RateLimitEntry) (hget : mapGet m ip = some e) (hwin : ¬ now > e.resetTime)
    (hover : e.count + 1 > maxReq) :
    checkRateLimit maxReq window now ip m =
      (⟨false, some ((e.resetTime - now + 999) / 1000)⟩,
        mapSet m ip ⟨e.count + 1, e.resetTime⟩) := by
  simp [checkRateLimit, hget, hwin, hover]

theorem checkRateLimit_allowed (maxReq window now : Nat) (ip : String) (m : RLStore)
    (e : RateLimitEntry) (hget : mapGet m ip = some e) (hwin : ¬ now > e.resetTime)
    (hok : ¬ e.count + 1 > maxReq) :
    checkRateLimit maxReq window now ip m =
      (⟨true, none⟩, mapSet m ip ⟨e.count + 1, e.resetTime⟩) := by
  simp [checkRateLimit, hget, hwin, hok]

/-- Run a sequence of rate-limiter checks for one key at the given call times. -/
def runCalls (maxReq window : Nat) (ip : String) :
    List Nat → RLStore → List RateLimitResult × RLStore
  | [], m => ([], m)
  | t :: ts, m =>
    ((checkRateLimit maxReq window t ip m).1 ::
        (runCalls maxReq window ip ts (checkRateLimit maxReq window t ip m).2).1,
      (runCalls maxReq window ip ts (checkRateLimit maxReq window t ip m).2).2)

/-! ## Express security middleware (`adk-nexus/src/securitymiddleware.ts`) -/

/-- An Express request, restricted to the fields the guards read. -/
structure Request where
  path : String
  method : String
  userAgent : Option String
  xForwardedFor : Option String
  xRealIP : Option String
  reqIp : Option String
  remoteAddress : Option String
  contentType : Option String
  xSessionId : Option String
  xApiKey : Option String
  xCaptchaToken : Option String
deriving DecidableEq, Repr

/-- Outcome of one Express guard: call `next()` or answer with an HTTP status. -/
inductive Decision where
  | next
  | respond (status : Nat)
deriving DecidableEq, Repr

def RATE_LIMIT_WINDOW_MS : Nat := 60000
def RATE_LIMIT_MAX_REQUESTS : Nat := 3
def MAX_RATE_LIMIT_ENTRIES : Nat := 1000

/-- First comma-separated piece of a forwarded-for header value, trimmed
(`forwarded.split(",")[0].trim()`). -/
def firstForwarded (s : String) : String :=
  trimStr ⟨beforeComma s.data⟩

/-- `getClientIP` from `securitymiddleware.ts`: first forwarded-for value, else
the real-ip header, else `req.ip`, else `req.socket.remoteAddress`, else
`"unknown"`.  (The source's `string[]` branch, taking element 0, is never
exercised: Node folds duplicate instances of these headers into one string.) -/
def getClientIP (req : Request) : String :=
  if truthy req.xForwardedFor then firstForwarded (req.xForwardedFor.getD "")
  else if truthy req.xRealIP then req.xRealIP.getD ""
  else if truthy req.reqIp then req.reqIp.getD ""
  else if truthy req.remoteAddress then req.remoteAddress.getD ""
  else "unknown"

/-- `rateLimitGuard`: the sliding-window limiter with the Express constants
(3 requests / 60000 ms), denying with HTTP 429. -/
def rateLimitGuard (now : Nat) (req : Request) (m : RLStore) : Decision × RLStore :=
  let clientIP := getClientIP req
  match mapGet m clientIP with
  | none => (.next, mapSet m clientIP ⟨1, now + RATE_LIMIT_WINDOW_MS⟩)
  | some entry =>
    if now > entry.resetTime then
      (.next, mapSet m clientIP ⟨1, now + RATE_LIMIT_WINDOW_MS⟩)
    else if entry.count + 1 > RATE_LIMIT_MAX_REQUESTS then
      (.respond 429, mapSet m clientIP ⟨entry.count + 1, entry.resetTime⟩)
    else
      (.next, mapSet m clientIP ⟨entry.count + 1, entry.resetTime⟩)

/-- The eviction sweep run by the Express `cleanupInterval`: drop entries whose
window has elapsed, then, if the store still exceeds
`MAX_RATE_LIMIT_ENTRIES`, delete the first `size - capacity` keys in insertion
order (FIFO). -/
def expressCleanup (now : Nat) (m : RLStore) : RLStore :=
  let m1 := m.filter (fun p => !(decide (now > p.2.resetTime)))
  if MAX_RATE_LIMIT_ENTRIES < m1.length then
    m1.drop (m1.length - MAX_RATE_LIMIT_ENTRIES)
  else m1

def BOT_PATTERNS : List String :=
  ["bot", "crawler", "spider", "scraper", "curl", "wget",
   "python-requests", "go-http-client", "java/", "ruby",
   "headless", "phantom", "selenium", "puppeteer", "playwright"]

/-- `botGuard`: skip for `/health`, then deny (403) an absent/short user-agent
or one whose lower-casing contains a deny-list pattern. -/
def botGuard (req : Request) : Decision :=
  if req.path = "/health" then .next
  else
    let ua := lowerStr (req.userAgent.getD "")
    if ua = "" then .respond 403
    else if ua.length < 10 then .respond 403
    else if BOT_PATTERNS.any (fun p => includes ua p) then .respond 403
    else .next

/-- Result of the Express `apiKeyGuard`. -/
inductive KeyResult where
  | allowWithWarning
  | allow
  | unauthorized
deriving DecidableEq, Repr

/-- `apiKeyGuard` from `securitymiddleware.ts`: if `BACKEND_ACCESS_KEY` is not
configured, warn and allow; otherwise deny (401) unless the supplied
`x-api-key` is a truthy exact match. -/
def apiKeyGuard (suppliedKey expectedKey : Option String) : KeyResult :=
  if !truthy expectedKey then .allowWithWarning
  else if !truthy suppliedKey || decide (¬ suppliedKey = expectedKey) then .unauthorized
  else .allow

/-- The second `apiKeyGuard`, from the duplicate middleware file: no
unconfigured-skip branch — deny (401) unless the supplied key is truthy and
strictly equal to `process.env.BACKEND_ACCESS_KEY` (which is `undefined` when
unset, so no string ever matches it). -/
def apiKeyGuardDup (suppliedKey expectedKey : Option String) : KeyResult :=
  if !truthy suppliedKey || decide (¬ suppliedKey = expectedKey) then .unauthorized
  else .allow

/-- The session-lease store: a JS `Map<string, boolean>`. -/
abbrev SessionStore := List (String × Bool)

def mapGetB : SessionStore → String → Option Bool
  | [], _ => none
  | p :: rest, k => if p.1 = k then some p.2 else mapGetB rest k

def mapSetB : SessionStore → String → Bool → SessionStore
  | [], k, v => [(k, v)]
  | p :: rest, k, v => if p.1 = k then (k, v) :: rest else p :: mapSetB rest k v

def mapDeleteB (m : SessionStore) (k : String) : SessionStore :=
  m.filter (fun p => decide (¬ p.1 = k))

def MAX_ACTIVE_SESSIONS : Nat := 500

/-- Result of the concurrency guard's admission check. -/
inductive ConcDecision where
  | missingSessionId
  | concurrentInProgress
  | capacityExceeded
  | admitted
deriving DecidableEq, Repr

/-- HTTP status answered on each concurrency-guard denial. -/
def concStatus : ConcDecision → Option Nat
  | .missingSessionId => some 400
  | .concurrentInProgress => some 429
  | .capacityExceeded => some 503
  | .admitted => none

/-- `concurrencyGuard` admission from `securitymiddleware.ts`: 400 without a
truthy `x-session-id`; 429 when that session is already marked in-flight; 503
when `activeSessions.size >= MAX_ACTIVE_SESSIONS`; otherwise record the lease
and admit. -/
def concurrencyGuard (sid : Option String) (sessions : SessionStore) :
    ConcDecision × SessionStore :=
  if !truthy sid then (.missingSessionId, sessions)
  else
    let s := sid.getD ""
    if (mapGetB sessions s).getD false then (.concurrentInProgress, sessions)
    else if MAX_ACTIVE_SESSIONS ≤ sessions.length then (.capacityExceeded, sessions)
    else (.admitted, mapSetB sessions s true)

/-- How one admitted request's processing can end. -/
inductive ReqOutcome where
  | success
  | handledFailure
  | threwException
  | aborted
deriving DecidableEq, Repr

/-- Modelled Node.js HTTP response contract: the `finish` event is emitted when
the response has been fully handed to the transport — which happens on success,
on a handled failure response, and on the error response Express sends after a
thrown exception — but a connection aborted before response completion emits
`close` without ever emitting `finish`. -/
def finishFires : ReqOutcome → Bool
  | .aborted => false
  | _ => true

/-- Lifecycle of one admitted request under `concurrencyGuard`: the lease is
set, and the `res.on("finish", ...)` listener deletes it exactly when the
`finish` event fires for the request's outcome. -/
def leaseLifecycle (sessions : SessionStore) (sid : String) (outcome : ReqOutcome) :
    SessionStore :=
  let s1 := mapSetB sessions sid true
  if finishFires outcome then mapDeleteB s1 sid else s1

/-- `requestValidationGuard`: POST/PUT/PATCH must carry a content-type
containing `application/json`, else 415; other methods pass. -/
def requestValidationGuard (req : Request) : Decision :=
  if ["POST", "PUT", "PATCH"].contains req.method then
    if !truthy req.contentType
        || !includes (req.contentType.getD "") "application/json" then
      .respond 415
    else .next
  else .next

/-- Outcome of the CAPTCHA verification network call, as observed by
`captchaGuard`'s `try` block. -/
inductive VerifyOutcome where
  | ok
  | failed (codes : List String)
  | threw
deriving DecidableEq, Repr

/-- Environment configuration read by `captchaGuard`. -/
structure CaptchaEnv where
  production : Bool
  secretKey : Option String
deriving DecidableEq, Repr

/-- Result of `captchaGuard`, named by the spec's error taxonomy; statuses are
tied back to the source by `captchaStatus`. -/
inductive CaptchaResult where
  | allow
  | serviceMisconfigured
  | captchaRequired
  | verificationFailed (codes : List String)
  | serviceUnavailable
deriving DecidableEq, Repr

/-- HTTP status of each `captchaGuard` answer in the source: 503 for the
production misconfiguration, 400 for a missing token, 403 for a failed provider
verdict, 500 when the verification call throws. -/
def captchaStatus : CaptchaResult → Option Nat
  | .allow => none
  | .serviceMisconfigured => some 503
  | .captchaRequired => some 400
  | .verificationFailed _ => some 403
  | .serviceUnavailable => some 500

/-- `captchaGuard`: in production with no truthy secret, deny 503; with no
truthy secret outside production, allow; with a secret but no truthy caller
token, deny 400; otherwise the Turnstile verdict decides — non-success denies
403 with the provider's error codes, and a thrown verification call denies
500. -/
def captchaGuard (env : CaptchaEnv) (token : Option String) (out : VerifyOutcome) :
    CaptchaResult :=
  if env.production && !truthy env.secretKey then .serviceMisconfigured
  else if !truthy env.secretKey && !env.production then .allow
  else if !truthy token then .captchaRequired
  else
    match out with
    | .ok => .allow
    | .failed codes => .verificationFailed codes
    | .threw => .serviceUnavailable

/-- `securityMiddleware`: the composed chain actually exported — rate limit,
then bot filter, then request validation, each denial short-circuiting. -/
def securityMiddleware (now : Nat) (req : Request) (m : RLStore) : Decision × RLStore :=
  let r1 := rateLimitGuard now req m
  match r1.1 with
  | .respond s => (.respond s, r1.2)
  | .next =>
    match botGuard req with
    | .respond s => (.respond s, r1.2)
    | .next => (requestValidationGuard req, r1.2)

/-! ## Edge middleware (the Next.js request interceptor) -/

/-- An edge request: pathname plus the headers the interceptor reads
(`headers.get` yields `null` for an absent header). -/
structure EdgeRequest where
  pathname : String
  userAgent : Option String
  xForwardedFor : Option String
  xRealIP : Option String
deriving DecidableEq, Repr

/-- Outcome of the edge middleware: pass the request on, or answer with a
status. -/
inductive EdgeResult where
  | nextR
  | blocked (status : Nat)
deriving DecidableEq, Repr

def RATE_LIMIT_WINDOW : Nat := 60000
def RATE_LIMIT_MAX : Nat := 100
def STRICT_RATE_LIMIT : Nat := 30

/-- Edge `getClientIP`: first forwarded-for value, else the real-ip header,
else `"unknown"` (no transport-address fallback in the edge runtime). -/
def edgeGetClientIP (req : EdgeRequest) : String :=
  if truthy req.xForwardedFor then firstForwarded (req.xForwardedFor.getD "")
  else if truthy req.xRealIP then req.xRealIP.getD ""
  else "unknown"

/-- `cleanupRateLimitMap` from the edge file: only when the store holds more
than 1000 entries, remove the entries whose window has elapsed — and nothing
else (no FIFO eviction of unexpired entries). -/
def edgeCleanup (now : Nat) (m : RLStore) : RLStore :=
  if 1000 < m.length then m.filter (fun p => !(decide (now > p.2.resetTime)))
  else m

def EDGE_BOT_PATTERNS : List String :=
  ["bot", "crawler", "spider", "curl", "python", "scraper",
   "wget", "go-http-client", "java/", "headless", "phantom",
   "selenium", "puppeteer", "playwright", "axios", "node-fetch"]

/-- The path exemptions of the edge middleware: static assets, Next.js
internals, auth routes and the health check skip every guard. -/
def skipPath (p : String) : Bool :=
  strStarts p "/_next/" || strStarts p "/api/auth/" || includes p "/_vercel/"
    || strEnds p ".css" || strEnds p ".js" || strEnds p ".woff"
    || strEnds p ".woff2" || strEnds p ".otf" || strEnds p ".ttf"
    || strEnds p ".ico" || strEnds p ".png" || strEnds p ".jpg"
    || strEnds p ".svg" || p = "/health"

/-- The edge `middleware` function, in source order: emergency kill switch
(503), path exemptions, bot / user-agent blocking (403), then
`cleanupRateLimitMap` followed by the inline stricter rate limiter
(`STRICT_RATE_LIMIT = 30` per minute, 429 on denial). -/
def edgeMiddleware (emergencyShutdown : Option String) (now : Nat)
    (req : EdgeRequest) (m : RLStore) : EdgeResult × RLStore :=
  if emergencyShutdown = some "true" then (.blocked 503, m)
  else
    let ua := req.userAgent.getD ""
    if skipPath req.pathname then (.nextR, m)
    else if ua = "" || ua.length < 10
        || EDGE_BOT_PATTERNS.any (fun b => includes (lowerStr ua) b) then
      (.blocked 403, m)
    else
      let m1 := edgeCleanup now m
      let clientIP := edgeGetClientIP req
      match mapGet m1 clientIP with
      | none => (.nextR, mapSet m1 clientIP ⟨1, now + RATE_LIMIT_WINDOW⟩)
      | some entry =>
        if now > entry.resetTime then
          (.nextR, mapSet m1 clientIP ⟨1, now + RATE_LIMIT_WINDOW⟩)
        else if entry.count + 1 > STRICT_RATE_LIMIT then
          (.blocked 429, mapSet m1 clientIP ⟨entry.count + 1, entry.resetTime⟩)
        else
          (.nextR, mapSet m1 clientIP ⟨entry.count + 1, entry.resetTime⟩)

/-! ## Route registration in `adk-nexus/src/server.ts` -/

/-- The guards of the admission pipeline, by name. -/
inductive GuardName where
  | rateLimit
  | botFilter
  | concurrency
  | captcha
  | credential
  | requestValidation
deriving DecidableEq, Repr

/-- The route-level middleware chain `server.ts` registers for
`POST /api/analyze-repo`: only the async handler itself.  `server.ts` has no
dependency on `securitymiddleware.ts`, and no `app.use` mounts any of its
guards, so no guard name appears here. -/
def analyzeRepoRouteGuards : List GuardName := []

/-- Express routing for the analysis endpoint as registered in `server.ts`:
the handler runs for every `POST /api/analyze-repo` request — there is no
guard middleware in front of it. -/
def reachesAnalyzeHandler (req : Request) : Bool :=
  req.method = "POST" && req.path = "/api/analyze-repo"

/-! ## Theorems -/

/-- A store holding 1001 distinct keys, all with unexpired windows. -/
def bigStore : RLStore := (List.range 1001).map (fun i => (toString i, ⟨1, 100⟩))

/-- C1 counterexample: the edge store's sweep (`cleanupRateLimitMap`) removes
only expired entries, so after injecting 1001 distinct keys whose windows have
not elapsed, the sweep leaves the store at 1001 entries — above the configured
capacity of 1000 — refuting the claim that every store's sweep brings the size
back to at most capacity regardless of expiry. -/
theorem edgeCleanup_exceeds_capacity : 1000 < (edgeCleanup 0 bigStore).length := by
  have hlen : bigStore.length = 1001 := by
    simp [bigStore]
  have hfil : bigStore.filter (fun p => !(decide (0 > p.2.resetTime))) = bigStore := by
    apply List.filter_eq_self.mpr
    intro a ha
    rw [bigStore, List.mem_map] at ha
    obtain ⟨i, _, rfl⟩ := ha
    rfl
  unfold edgeCleanup
  rw [if_pos (by rw [hlen]; omega), hfil, hlen]
  omega

/-- C1 amended: after a sweep, the Express store holds at most
`MAX_RATE_LIMIT_ENTRIES` entries (expiry removal, then FIFO eviction of the
oldest-inserted keys down to capacity); the edge store's sweep only removes
expired entries, so its size after a sweep is bounded by the larger of the
capacity and the number of unexpired entries — not by the capacity alone. -/
theorem cleanup_sweep_bounds (now : Nat) (m : RLStore) :
    (expressCleanup now m).length ≤ MAX_RATE_LIMIT_ENTRIES ∧
    (edgeCleanup now m).length ≤
      max 1000 ((m.filter (fun p => !(decide (now > p.2.resetTime)))).length) := by
  constructor
  · have key : ∀ (l : RLStore),
        (if MAX_RATE_LIMIT_ENTRIES < l.length then
            l.drop (l.length - MAX_RATE_LIMIT_ENTRIES)
          else l).length ≤ MAX_RATE_LIMIT_ENTRIES := by
      intro l
      split
      · rw [List.length_drop]
        omega
      · omega
    exact key (m.filter (fun p => !(decide (now > p.2.resetTime))))
  · unfold edgeCleanup
    split
    · exact le_max_right _ _
    · exact le_trans (by omega) (le_max_left _ _)

/-- Steady-state behaviour of the limiter within one window: starting from a
stored entry `⟨c, r⟩` for the key, a sequence of calls all at times `≤ r` is
fully allowed and leaves the count at `c + number of calls`, provided that
total stays within the configured maximum. -/
theorem runCalls_steady (maxReq window : Nat) (ip : String) (ts : List Nat) :
    ∀ (m : RLStore) (c r : Nat),
      mapGet m ip = some ⟨c, r⟩ →
      (∀ t ∈ ts, t ≤ r) →
      c + ts.length ≤ maxReq →
      (∀ res ∈ (runCalls maxReq window ip ts m).1, res.allowed = true) ∧
      mapGet (runCalls maxReq window ip ts m).2 ip = some ⟨c + ts.length, r⟩ := by
  induction ts with
  | nil =>
    intro m c r hget _ _
    simp [runCalls, hget]
  | cons t ts ih =>
    intro m c r hget hts hcnt
    have ht : ¬ t > r := not_lt.mpr (hts t (by simp))
    have hc1 : ¬ c + 1 > maxReq := by
      simp only [List.length_cons] at hcnt
      omega
    have hstep : checkRateLimit maxReq window t ip m =
        (⟨true, none⟩, mapSet m ip ⟨c + 1, r⟩) :=
      checkRateLimit_allowed maxReq window t ip m ⟨c, r⟩ hget ht hc1
    have ihres := ih (mapSet m ip ⟨c + 1, r⟩) (c + 1) r
      (mapGet_mapSet_self _ _ _)
      (fun u hu => hts u (by simp [hu]))
      (by simp only [List.length_cons] at hcnt; omega)
    constructor
    · intro res hres
      simp only [runCalls, hstep, List.mem_cons] at hres
      rcases hres with h | h
      · rw [h]
      · exact ihres.1 res h
    · simp only [runCalls, hstep]
      have h2 := ihres.2
      have harith : c + 1 + ts.length = c + (t :: ts).length := by
        simp only [List.length_cons]
        omega
      rw [harith] at h2
      exact h2

/-- C2: for a limiter configured with maximum `maxReq` per window of `window`
ms and one key, the first `maxReq` calls within the window of the first call
are all allowed; the next call inside the window is denied with
`retryAfter = ceil((windowResetAt - now)/1000)`, which is at least 1 whenever
the window has positive remaining time; and a call after the window has
elapsed is allowed and resets the stored entry to count 1 with a fresh
`windowResetAt`. -/
theorem rateLimiter_window_rollover
    (maxReq window t0 tden treset : Nat) (ip : String) (rest : List Nat)
    (hN : rest.length + 1 = maxReq)
    (hrest : ∀ t ∈ rest, t ≤ t0 + window)
    (hden : tden ≤ t0 + window)
    (hreset : t0 + window < treset) :
    (∀ res ∈ (runCalls maxReq window ip (t0 :: rest) []).1, res.allowed = true) ∧
    (checkRateLimit maxReq window tden ip
        (runCalls maxReq window ip (t0 :: rest) []).2).1 =
      ⟨false, some ((t0 + window - tden + 999) / 1000)⟩ ∧
    (tden < t0 + window → 1 ≤ (t0 + window - tden + 999) / 1000) ∧
    (checkRateLimit maxReq window treset ip
        (checkRateLimit maxReq window tden ip
          (runCalls maxReq window ip (t0 :: rest) []).2).2).1.allowed = true ∧
    mapGet (checkRateLimit maxReq window treset ip
        (checkRateLimit maxReq window tden ip
          (runCalls maxReq window ip (t0 :: rest) []).2).2).2 ip =
      some ⟨1, treset + window⟩ := by
  have h0 : checkRateLimit maxReq window t0 ip [] =
      (⟨true, none⟩, [(ip, ⟨1, t0 + window⟩)]) :=
    checkRateLimit_fresh maxReq window t0 ip [] rfl
  have hsteady := runCalls_steady maxReq window ip rest
    [(ip, ⟨1, t0 + window⟩)] 1 (t0 + window)
    (by simp [mapGet]) hrest (by omega)
  have hget2 : mapGet (runCalls maxReq window ip (t0 :: rest) []).2 ip =
      some ⟨maxReq, t0 + window⟩ := by
    simp only [runCalls, h0]
    have := hsteady.2
    have harith : 1 + rest.length = maxReq := by omega
    rw [harith] at this
    exact this
  have hdenstep : checkRateLimit maxReq window tden ip
      (runCalls maxReq window ip (t0 :: rest) []).2 =
      (⟨false, some ((t0 + window - tden + 999) / 1000)⟩,
        mapSet (runCalls maxReq window ip (t0 :: rest) []).2 ip
          ⟨maxReq + 1, t0 + window⟩) :=
    checkRateLimit_denied maxReq window tden ip _ ⟨maxReq, t0 + window⟩ hget2
      (not_lt.mpr hden) (by show maxReq + 1 > maxReq; omega)
  have hget3 : mapGet (checkRateLimit maxReq window tden ip
      (runCalls maxReq window ip (t0 :: rest) []).2).2 ip =
      some ⟨maxReq + 1, t0 + window⟩ := by
    rw [hdenstep]
    exact mapGet_mapSet_self _ _ _
  have hresetstep : checkRateLimit maxReq window treset ip
      (checkRateLimit maxReq window tden ip
        (runCalls maxReq window ip (t0 :: rest) []).2).2 =
      (⟨true, none⟩,
        mapSet (checkRateLimit maxReq window tden ip
          (runCalls maxReq window ip (t0 :: rest) []).2).2 ip
          ⟨1, treset + window⟩) :=
    checkRateLimit_expired maxReq window treset ip _ ⟨maxReq + 1, t0 + window⟩
      hget3 hreset
  refine ⟨?_, ?_, ?_, ?_, ?_⟩
  · intro res hres
    simp only [runCalls, h0, List.mem_cons] at hres
    rcases hres with h | h
    · rw [h]
    · exact hsteady.1 res h
  · rw [hdenstep]
  · intro hpos
    rw [Nat.le_div_iff_mul_le (by omega : 0 < 1000)]
    omega
  · rw [hresetstep]
  · rw [hresetstep]
    exact mapGet_mapSet_self _ _ _

/-- C2 witness: max 3 per 60000 ms window, calls at 0, 10, 20 all allowed, a
fourth call at 30 denied with retry-after 60 s, and a call at 60001 allowed
with the entry reset to count 1. -/
theorem rateLimiter_window_rollover_witness :
    (∀ res ∈ (runCalls 3 60000 "1.2.3.4" [0, 10, 20] []).1, res.allowed = true) ∧
    (checkRateLimit 3 60000 30 "1.2.3.4"
        (runCalls 3 60000 "1.2.3.4" [0, 10, 20] []).2).1 =
      ⟨false, some ((0 + 60000 - 30 + 999) / 1000)⟩ ∧
    (30 < 0 + 60000 → 1 ≤ (0 + 60000 - 30 + 999) / 1000) ∧
    (checkRateLimit 3 60000 60001 "1.2.3.4"
        (checkRateLimit 3 60000 30 "1.2.3.4"
          (runCalls 3 60000 "1.2.3.4" [0, 10, 20] []).2).2).1.allowed = true ∧
    mapGet (checkRateLimit 3 60000 60001 "1.2.3.4"
        (checkRateLimit 3 60000 30 "1.2.3.4"
          (runCalls 3 60000 "1.2.3.4" [0, 10, 20] []).2).2).2 "1.2.3.4" =
      some ⟨1, 60001 + 60000⟩ :=
  rateLimiter_window_rollover 3 60000 0 30 60001 "1.2.3.4" [10, 20]
    (by decide) (by decide) (by decide) (by decide)

/-- An adversarial request to the analysis endpoint: bot user-agent, no session
id, no CAPTCHA token, no API key. -/
def c3Request : Request :=
  { path := "/api/analyze-repo", method := "POST", userAgent := some "curl/7.68.0",
    xForwardedFor := some "203.0.113.5", xRealIP := none, reqIp := none,
    remoteAddress := none, contentType := some "application/json",
    xSessionId := none, xApiKey := none, xCaptchaToken := none }

/-- C3 (code bug): `server.ts` registers `POST /api/analyze-repo` with no guard
middleware at all (`analyzeRepoRouteGuards = []`), so a request that every
guard in `securitymiddleware.ts` would deny — bot user-agent (403), missing
session id (400), CAPTCHA misconfigured in production (503), missing API key
(401) — still reaches the analysis handler. -/
theorem analyzeRepo_handler_unguarded :
    reachesAnalyzeHandler c3Request = true ∧
    analyzeRepoRouteGuards = [] ∧
    botGuard c3Request = Decision.respond 403 ∧
    (concurrencyGuard c3Request.xSessionId []).1 = ConcDecision.missingSessionId ∧
    captchaGuard ⟨true, none⟩ c3Request.xCaptchaToken VerifyOutcome.ok =
      CaptchaResult.serviceMisconfigured ∧
    apiKeyGuard c3Request.xApiKey (some "backend-key") = KeyResult.unauthorized := by
  decide

/-- An edge request to a protected endpoint carrying a bot user-agent. -/
def c4EdgeRequest : EdgeRequest :=
  { pathname := "/api/analyze-repo",
    userAgent := some "curl/7.68.0 (x86_64-pc-linux-gnu)",
    xForwardedFor := some "198.51.100.9", xRealIP := none }

/-- An edge rate-limit store in which `198.51.100.9` has exhausted the strict
limit of 30 inside an unexpired window. -/
def c4EdgeStore : RLStore := [("198.51.100.9", ⟨30, 60000⟩)]

/-- C4 counterexample: in the edge middleware the bot filter runs before the
rate limiter.  At time 100 the key `198.51.100.9` is rate-limited (the same
request with a plain browser user-agent is denied 429), yet the request with a
bot user-agent is denied 403 — the bot reason, not the rate-limit reason the
claim requires. -/
theorem guardOrder_counterexample :
    (edgeMiddleware none 100 c4EdgeRequest c4EdgeStore).1 = EdgeResult.blocked 403 ∧
    (edgeMiddleware none 100
        { c4EdgeRequest with
            userAgent := some "Mozilla/5.0 (X11; Linux x86_64) Chrome/120.0" }
        c4EdgeStore).1 = EdgeResult.blocked 429 := by
  decide

/-- C4 amended: the two pipelines order these guards differently.  In the
Express `securityMiddleware` the rate limiter runs first: any request whose key
is over the limit inside an unexpired window is denied 429 — even one carrying
a bot user-agent — with only the rate-limit store touched and no later guard
evaluated.  In the edge middleware the bot filter runs before the rate
limiter: a bot-flagged request is denied 403 with the store left completely
untouched (so no rate-limit, lease, or CAPTCHA side effect occurs).  In both
pipelines the first denial short-circuits the chain. -/
theorem guardOrder_amended
    (now enow : Nat) (req : Request) (e : RateLimitEntry) (m : RLStore)
    (ereq : EdgeRequest) (em : RLStore)
    (hget : mapGet m (getClientIP req) = some e)
    (hwin : ¬ now > e.resetTime)
    (hcount : RATE_LIMIT_MAX_REQUESTS ≤ e.count)
    (_hbot : botGuard req = Decision.respond 403)
    (hskip : skipPath ereq.pathname = false)
    (hbotE : (ereq.userAgent.getD "" = "" ∨ (ereq.userAgent.getD "").length < 10
      ∨ EDGE_BOT_PATTERNS.any
          (fun b => includes (lowerStr (ereq.userAgent.getD "")) b) = true)) :
    securityMiddleware now req m =
      (Decision.respond 429, mapSet m (getClientIP req) ⟨e.count + 1, e.resetTime⟩) ∧
    edgeMiddleware none enow ereq em = (EdgeResult.blocked 403, em) := by
  constructor
  · have hover : e.count + 1 > RATE_LIMIT_MAX_REQUESTS := by omega
    have hrl : rateLimitGuard now req m =
        (Decision.respond 429,
          mapSet m (getClientIP req) ⟨e.count + 1, e.resetTime⟩) := by
      simp [rateLimitGuard, hget, hwin, hover]
    simp [securityMiddleware, hrl]
  · have hcond : ((ereq.userAgent.getD "" = "")
        || ((ereq.userAgent.getD "").length < 10)
        || EDGE_BOT_PATTERNS.any
            (fun b => includes (lowerStr (ereq.userAgent.getD "")) b)) = true := by
      rcases hbotE with h | h | h <;> simp [h]
    simp [edgeMiddleware, hskip, hcond]

/-- C4 witness for the amended ordering theorem, at time 10 for the Express
side: the key `203.0.113.5` already has 3 requests in an unexpired window and
the user-agent is a bot pattern, and the resulting denial is the 429 one; the
edge side is the bot-flagged request of the counterexample, denied 403 with
the store unchanged. -/
theorem guardOrder_amended_witness :
    securityMiddleware 10
        { path := "/api/analyze-repo", method := "POST",
          userAgent := some "curl/7.68.0", xForwardedFor := some "203.0.113.5",
          xRealIP := none, reqIp := none, remoteAddress := none,
          contentType := some "application/json", xSessionId := none,
          xApiKey := none, xCaptchaToken := none }
        [("203.0.113.5", ⟨3, 60000⟩)] =
      (Decision.respond 429,
        mapSet [("203.0.113.5", ⟨3, 60000⟩)]
          (getClientIP
            { path := "/api/analyze-repo", method := "POST",
              userAgent := some "curl/7.68.0", xForwardedFor := some "203.0.113.5",
              xRealIP := none, reqIp := none, remoteAddress := none,
              contentType := some "application/json", xSessionId := none,
              xApiKey := none, xCaptchaToken := none }) ⟨3 + 1, 60000⟩) ∧
    edgeMiddleware none 100 c4EdgeRequest c4EdgeStore =
      (EdgeResult.blocked 403, c4EdgeStore) :=
  guardOrder_amended 10 100
    { path := "/api/analyze-repo", method := "POST",
      userAgent := some "curl/7.68.0", xForwardedFor := some "203.0.113.5",
      xRealIP := none, reqIp := none, remoteAddress := none,
      contentType := some "application/json", xSessionId := none,
      xApiKey := none, xCaptchaToken := none }
    ⟨3, 60000⟩ [("203.0.113.5", ⟨3, 60000⟩)] c4EdgeRequest c4EdgeStore
    (by decide) (by decide) (by decide) (by decide) (by decide)
    (by right; right; decide)

/-- C5: the CAPTCHA verifier's configuration cases, in the source's order, and
fail-closed on every verifier failure: production with no truthy secret denies
503 (`ServiceMisconfigured`) regardless of token; no truthy secret outside
production allows; a secret with no truthy caller token denies 400
(`CaptchaRequired`); a non-success provider verdict denies 403 carrying the
provider's error codes; a thrown/timed-out verification call denies 500
(`VerificationServiceUnavailable`). -/
theorem captchaGuard_cases (env : CaptchaEnv) (token : Option String)
    (codes : List String) (out : VerifyOutcome) :
    (env.production = true → truthy env.secretKey = false →
      captchaGuard env token out = CaptchaResult.serviceMisconfigured ∧
      captchaStatus (captchaGuard env token out) = some 503) ∧
    (truthy env.secretKey = false → env.production = false →
      captchaGuard env token out = CaptchaResult.allow) ∧
    (truthy env.secretKey = true → truthy token = false →
      captchaGuard env token out = CaptchaResult.captchaRequired ∧
      captchaStatus (captchaGuard env token out) = some 400) ∧
    (truthy env.secretKey = true → truthy token = true →
      captchaGuard env token (VerifyOutcome.failed codes) =
        CaptchaResult.verificationFailed codes ∧
      captchaStatus (captchaGuard env token (VerifyOutcome.failed codes)) =
        some 403) ∧
    (truthy env.secretKey = true → truthy token = true →
      captchaGuard env token VerifyOutcome.threw =
        CaptchaResult.serviceUnavailable ∧
      captchaStatus (captchaGuard env token VerifyOutcome.threw) = some 500) := by
  refine ⟨?_, ?_, ?_, ?_, ?_⟩ <;>
    intro h1 h2 <;>
    simp [captchaGuard, captchaStatus, h1, h2]

/-- C5 witness: each configuration case at a concrete environment, token and
provider verdict. -/
theorem captchaGuard_cases_witness :
    captchaGuard ⟨true, none⟩ (some "tok") VerifyOutcome.ok =
      CaptchaResult.serviceMisconfigured ∧
    captchaGuard ⟨false, none⟩ none VerifyOutcome.ok = CaptchaResult.allow ∧
    captchaGuard ⟨true, some "secret-key"⟩ none VerifyOutcome.ok =
      CaptchaResult.captchaRequired ∧
    captchaGuard ⟨false, some "secret-key"⟩ (some "tok")
        (VerifyOutcome.failed ["invalid-input-response"]) =
      CaptchaResult.verificationFailed ["invalid-input-response"] ∧
    captchaGuard ⟨false, some "secret-key"⟩ (some "tok") VerifyOutcome.threw =
      CaptchaResult.serviceUnavailable :=
  ⟨((captchaGuard_cases ⟨true, none⟩ (some "tok") [] VerifyOutcome.ok).1
      rfl rfl).1,
    (captchaGuard_cases ⟨false, none⟩ none [] VerifyOutcome.ok).2.1 rfl rfl,
    ((captchaGuard_cases ⟨true, some "secret-key"⟩ none [] VerifyOutcome.ok).2.2.1
      rfl rfl).1,
    ((captchaGuard_cases ⟨false, some "secret-key"⟩ (some "tok")
        ["invalid-input-response"] VerifyOutcome.ok).2.2.2.1 rfl rfl).1,
    ((captchaGuard_cases ⟨false, some "secret-key"⟩ (some "tok")
        [] VerifyOutcome.ok).2.2.2.2 rfl rfl).1⟩

/-- C6 (code bug): the lease is released when the request ends in any outcome
whose response completes — success, handled failure, or the error response
after a thrown exception — because those emit the `finish` event; but a
mid-flight abort never emits `finish`, only `close`, and the guard's sole
release hook is `res.on("finish", ...)`, so the aborted request's session
stays marked in-flight. -/
theorem leaseRelease_abort_bug :
    mapGetB (leaseLifecycle [] "sess-1" ReqOutcome.success) "sess-1" = none ∧
    mapGetB (leaseLifecycle [] "sess-1" ReqOutcome.handledFailure) "sess-1" = none ∧
    mapGetB (leaseLifecycle [] "sess-1" ReqOutcome.threwException) "sess-1" = none ∧
    mapGetB (leaseLifecycle [] "sess-1" ReqOutcome.aborted) "sess-1" = some true := by
  decide

/-- C7: the concurrency guard's admission check — 400 (`MissingSessionId`)
without a truthy session token; 429 (`ConcurrentRequestInProgress`) when the
token already holds a lease; 503 (`CapacityExceeded`) when the active-lease
count is at or above `MAX_ACTIVE_SESSIONS`; otherwise the lease is recorded
and the request admitted. -/
theorem concurrencyGuard_cases (sid : Option String) (sessions : SessionStore) :
    (truthy sid = false →
      concurrencyGuard sid sessions = (ConcDecision.missingSessionId, sessions) ∧
      concStatus (concurrencyGuard sid sessions).1 = some 400) ∧
    (truthy sid = true → (mapGetB sessions (sid.getD "")).getD false = true →
      concurrencyGuard sid sessions = (ConcDecision.concurrentInProgress, sessions) ∧
      concStatus (concurrencyGuard sid sessions).1 = some 429) ∧
    (truthy sid = true → (mapGetB sessions (sid.getD "")).getD false = false →
      MAX_ACTIVE_SESSIONS ≤ sessions.length →
      concurrencyGuard sid sessions = (ConcDecision.capacityExceeded, sessions) ∧
      concStatus (concurrencyGuard sid sessions).1 = some 503) ∧
    (truthy sid = true → (mapGetB sessions (sid.getD "")).getD false = false →
      sessions.length < MAX_ACTIVE_SESSIONS →
      concurrencyGuard sid sessions =
        (ConcDecision.admitted, mapSetB sessions (sid.getD "") true)) := by
  refine ⟨?_, ?_, ?_, ?_⟩
  · intro h1
    simp [concurrencyGuard, concStatus, h1]
  · intro h1 h2
    simp [concurrencyGuard, concStatus, h1, h2]
  · intro h1 h2 h3
    simp [concurrencyGuard, concStatus, h1, h2, h3]
  · intro h1 h2 h3
    simp [concurrencyGuard, concStatus, h1, h2, Nat.not_le.mpr h3]

theorem mapGetB_replicate (n : Nat) (k q : String) (b : Bool) (h : ¬ k = q) :
    mapGetB (List.replicate n (k, b)) q = none := by
  induction n with
  | zero => simp [List.replicate, mapGetB]
  | succ n ih => simp [List.replicate, mapGetB, h, ih]

/-- C7 witness: a missing token; a token already in flight; a fresh token
against a store of 500 active leases (capacity); and a fresh token against a
small store (admitted). -/
theorem concurrencyGuard_cases_witness :
    concurrencyGuard none [] = (ConcDecision.missingSessionId, []) ∧
    concurrencyGuard (some "sess-a") [("sess-a", true)] =
      (ConcDecision.concurrentInProgress, [("sess-a", true)]) ∧
    concurrencyGuard (some "sess-b") (List.replicate 500 ("busy", true)) =
      (ConcDecision.capacityExceeded, List.replicate 500 ("busy", true)) ∧
    concurrencyGuard (some "sess-b") [("sess-a", true)] =
      (ConcDecision.admitted, mapSetB [("sess-a", true)] "sess-b" true) :=
  ⟨((concurrencyGuard_cases none []).1 rfl).1,
    ((concurrencyGuard_cases (some "sess-a") [("sess-a", true)]).2.1
      rfl (by decide)).1,
    ((concurrencyGuard_cases (some "sess-b")
        (List.replicate 500 ("busy", true))).2.2.1 rfl
      (by
        show (mapGetB (List.replicate 500 ("busy", true)) "sess-b").getD false
          = false
        rw [mapGetB_replicate 500 "busy" "sess-b" true (by decide)]
        rfl)
      (by rw [List.length_replicate]; exact Nat.le_refl 500)).1,
    (concurrencyGuard_cases (some "sess-b") [("sess-a", true)]).2.2.2
      rfl (by decide) (by decide)⟩

/-- C8 counterexample: with no expected key configured, the duplicate
middleware file's gate denies (401) even a request that supplies a key — no
supplied key can equal the absent env value — while the main middleware's gate
allows with a warning, so the claim's "when no expected key is configured it
allows" does not hold of the duplicate gate. -/
theorem apiKeyGuardDup_unconfigured_denies :
    apiKeyGuardDup (some "any-key") none = KeyResult.unauthorized ∧
    apiKeyGuard (some "any-key") none = KeyResult.allowWithWarning := by
  decide

/-- C8 amended: the gate in `securitymiddleware.ts` behaves as claimed — allow
with a warning when unconfigured, and otherwise allow exactly the requests
whose supplied key is a truthy exact match, denying 401 on any mismatch or
absence; the duplicate file's gate requires the exact match unconditionally,
so when no key is configured it denies every request. -/
theorem apiKeyGuard_gate_spec (sk ek : Option String) :
    (truthy ek = false → apiKeyGuard sk ek = KeyResult.allowWithWarning) ∧
    (truthy ek = true → (apiKeyGuard sk ek = KeyResult.allow ↔ sk = ek)) ∧
    (truthy ek = true → (truthy sk = false ∨ ¬ sk = ek) →
      apiKeyGuard sk ek = KeyResult.unauthorized) ∧
    (apiKeyGuardDup sk none = KeyResult.unauthorized) ∧
    (truthy ek = true → (apiKeyGuardDup sk ek = KeyResult.allow ↔ sk = ek)) := by
  refine ⟨?_, ?_, ?_, ?_, ?_⟩
  · intro h
    simp [apiKeyGuard, h]
  · intro h
    by_cases heq : sk = ek
    · subst heq

      simp [apiKeyGuard, h]
    · simp [apiKeyGuard, h, heq]
  · intro h hbad
    rcases hbad with hb | hb
    · simp [apiKeyGuard, h, hb]
    · simp [apiKeyGuard, h, hb]
  · cases sk with
    | none => simp [apiKeyGuardDup, truthy]
    | some s => simp [apiKeyGuardDup]
  · intro h
    by_cases heq : sk = ek
    · subst heq

      simp [apiKeyGuardDup, h]
    · simp [apiKeyGuardDup, heq]

/-- C8 witness: an unconfigured main gate allows with a warning; a configured
gate allows the exact match, and denies a mismatch; the duplicate gate allows
the exact match when configured. -/
theorem apiKeyGuard_gate_spec_witness :
    apiKeyGuard none none = KeyResult.allowWithWarning ∧
    apiKeyGuard (some "k1") (some "k1") = KeyResult.allow ∧
    apiKeyGuard (some "k2") (some "k1") = KeyResult.unauthorized ∧
    apiKeyGuardDup (some "other") none = KeyResult.unauthorized ∧
    apiKeyGuardDup (some "k1") (some "k1") = KeyResult.allow :=
  ⟨(apiKeyGuard_gate_spec none none).1 rfl,
    ((apiKeyGuard_gate_spec (some "k1") (some "k1")).2.1 (by decide)).mpr rfl,
    (apiKeyGuard_gate_spec (some "k2") (some "k1")).2.2.1 (by decide)
      (Or.inr (by decide)),
    (apiKeyGuard_gate_spec (some "other") none).2.2.2.1,
    ((apiKeyGuard_gate_spec (some "k1") (some "k1")).2.2.2.2 (by decide)).mpr rfl⟩

/-- C9 counterexample: a forwarded-for header whose first comma-separated
value is blank makes the resolver return the empty string — even though every
fallback (real-ip, `req.ip`, socket address) is available — refuting "always
returns a non-empty string". -/
theorem getClientIP_returns_empty :
    getClientIP
      { path := "/api/analyze-repo", method := "POST",
        userAgent := some "Mozilla/5.0 (X11; Linux x86_64) Firefox/121.0",
        xForwardedFor := some ",203.0.113.7", xRealIP := some "203.0.113.7",
        reqIp := some "203.0.113.7", remoteAddress := some "203.0.113.7",
        contentType := none, xSessionId := none, xApiKey := none,
        xCaptchaToken := none } = "" := by
  decide

theorem truthy_getD_ne {o : Option String} (h : truthy o = true) :
    ¬ o.getD "" = "" := by
  cases o with
  | none => simp [truthy] at h
  | some s =>
    simp only [truthy, decide_eq_true_eq] at h
    simpa using h

/-- C9 amended: the resolver is total and follows the preference order — first
comma-separated value of the forwarded-for header (trimmed), else the real-ip
header, else `req.ip`, else the socket address, else `"unknown"` — and its
result is non-empty provided that, when the forwarded-for header is present
and truthy, its first comma-separated value does not trim to the empty string
(without that proviso the result can be empty, as the counterexample shows). -/
theorem getClientIP_spec (req : Request) :
    (truthy req.xForwardedFor = true →
      getClientIP req = firstForwarded (req.xForwardedFor.getD "")) ∧
    (truthy req.xForwardedFor = false → truthy req.xRealIP = true →
      getClientIP req = req.xRealIP.getD "") ∧
    (truthy req.xForwardedFor = false → truthy req.xRealIP = false →
      truthy req.reqIp = true → getClientIP req = req.reqIp.getD "") ∧
    (truthy req.xForwardedFor = false → truthy req.xRealIP = false →
      truthy req.reqIp = false → truthy req.remoteAddress = true →
      getClientIP req = req.remoteAddress.getD "") ∧
    (truthy req.xForwardedFor = false → truthy req.xRealIP = false →
      truthy req.reqIp = false → truthy req.remoteAddress = false →
      getClientIP req = "unknown") ∧
    ((truthy req.xForwardedFor = true →
        ¬ firstForwarded (req.xForwardedFor.getD "") = "") →
      ¬ getClientIP req = "") := by
  refine ⟨?_, ?_, ?_, ?_, ?_, ?_⟩
  · intro h1
    simp [getClientIP, h1]
  · intro h1 h2
    simp [getClientIP, h1, h2]
  · intro h1 h2 h3
    simp [getClientIP, h1, h2, h3]
  · intro h1 h2 h3 h4
    simp [getClientIP, h1, h2, h3, h4]
  · intro h1 h2 h3 h4
    simp [getClientIP, h1, h2, h3, h4]
  · intro hne
    by_cases h1 : truthy req.xForwardedFor
    · simpa [getClientIP, h1] using hne h1
    · by_cases h2 : truthy req.xRealIP
      · simpa [getClientIP, h1, h2] using truthy_getD_ne h2
      · by_cases h3 : truthy req.reqIp
        · simpa [getClientIP, h1, h2, h3] using truthy_getD_ne h3
        · by_cases h4 : truthy req.remoteAddress
          · simpa [getClientIP, h1, h2, h3, h4] using truthy_getD_ne h4
          · simp [getClientIP, h1, h2, h3, h4]

/-- C9 witness: a two-hop forwarded-for header resolves to its first value,
which is non-empty. -/
theorem getClientIP_spec_witness :
    getClientIP
        { path := "/api/analyze-repo", method := "POST",
          userAgent := some "Mozilla/5.0 (X11; Linux x86_64) Firefox/121.0",
          xForwardedFor := some "203.0.113.9, 10.0.0.1", xRealIP := none,
          reqIp := none, remoteAddress := none, contentType := none,
          xSessionId := none, xApiKey := none, xCaptchaToken := none } =
      firstForwarded "203.0.113.9, 10.0.0.1" ∧
    ¬ getClientIP
        { path := "/api/analyze-repo", method := "POST",
          userAgent := some "Mozilla/5.0 (X11; Linux x86_64) Firefox/121.0",
          xForwardedFor := some "203.0.113.9, 10.0.0.1", xRealIP := none,
          reqIp := none, remoteAddress := none, contentType := none,
          xSessionId := none, xApiKey := none, xCaptchaToken := none } = "" :=
  ⟨(getClientIP_spec
      { path := "/api/analyze-repo", method := "POST",
        userAgent := some "Mozilla/5.0 (X11; Linux x86_64) Firefox/121.0",
        xForwardedFor := some "203.0.113.9, 10.0.0.1", xRealIP := none,
        reqIp := none, remoteAddress := none, contentType := none,
        xSessionId := none, xApiKey := none, xCaptchaToken := none }).1
      (by decide),
    (getClientIP_spec
      { path := "/api/analyze-repo", method := "POST",
        userAgent := some "Mozilla/5.0 (X11; Linux x86_64) Firefox/121.0",
        xForwardedFor := some "203.0.113.9, 10.0.0.1", xRealIP := none,
        reqIp := none, remoteAddress := none, contentType := none,
        xSessionId := none, xApiKey := none, xCaptchaToken := none }).2.2.2.2.2
      (by decide)⟩

/-- C10: a POST/PUT/PATCH request admitted past the composed Express pipeline
carries a content-type containing `application/json`; such a request with a
missing or other content-type is answered 415 by the request-validation stage;
and requests of any other method pass that stage unconditionally. -/
theorem requestValidation_spec (now : Nat) (req : Request) (m : RLStore) :
    (["POST", "PUT", "PATCH"].contains req.method = true →
      (securityMiddleware now req m).1 = Decision.next →
      truthy req.contentType = true ∧
      includes (req.contentType.getD "") "application/json" = true) ∧
    (["POST", "PUT", "PATCH"].contains req.method = true →
      ¬ (truthy req.contentType = true ∧
        includes (req.contentType.getD "") "application/json" = true) →
      requestValidationGuard req = Decision.respond 415) ∧
    (["POST", "PUT", "PATCH"].contains req.method = false →
      requestValidationGuard req = Decision.next) := by
  refine ⟨?_, ?_, ?_⟩
  · intro hmeth hnext
    simp only [securityMiddleware] at hnext
    cases h1 : (rateLimitGuard now req m).1 with
    | respond s => rw [h1] at hnext; simp at hnext
    | next =>
      rw [h1] at hnext
      cases h2 : botGuard req with
      | respond s => rw [h2] at hnext; simp at hnext
      | next =>
        rw [h2] at hnext
        simp only at hnext
        unfold requestValidationGuard at hnext
        rw [if_pos hmeth] at hnext
        by_cases hct : (!truthy req.contentType
            || !includes (req.contentType.getD "") "application/json") = true
        · rw [if_pos hct] at hnext
          exact absurd hnext (by simp)
        · simp only [Bool.or_eq_true, Bool.not_eq_true', not_or] at hct
          exact ⟨by simpa using hct.1, by simpa using hct.2⟩
  · intro hmeth hbad
    unfold requestValidationGuard
    rw [if_pos hmeth, if_pos ?_]
    simp only [Bool.or_eq_true, Bool.not_eq_true']
    by_cases hc1 : truthy req.contentType = true
    · right
      rcases not_and.mp hbad hc1 with h
      simpa using h
    · left
      simpa using hc1
  · intro hmeth
    unfold requestValidationGuard
    rw [if_neg (by rw [hmeth]; exact Bool.false_ne_true)]

/-- C10 witness: a browser-like POST with JSON content-type passes the whole
composed pipeline (hence satisfies the content-type conclusion); the same
request with `text/plain` is answered 415 by the validation stage; a GET
passes the validation stage. -/
theorem requestValidation_spec_witness :
    (truthy (Option.some "application/json; charset=utf-8") = true ∧
      includes "application/json; charset=utf-8" "application/json" = true) ∧
    requestValidationGuard
      { path := "/api/analyze-repo", method := "POST",
        userAgent := some "Mozilla/5.0 (X11; Linux x86_64) Firefox/121.0",
        xForwardedFor := some "198.51.100.7", xRealIP := none, reqIp := none,
        remoteAddress := none, contentType := some "text/plain",
        xSessionId := none, xApiKey := none, xCaptchaToken := none } =
      Decision.respond 415 ∧
    requestValidationGuard
      { path := "/api/analyze-repo", method := "GET",
        userAgent := some "Mozilla/5.0 (X11; Linux x86_64) Firefox/121.0",
        xForwardedFor := some "198.51.100.7", xRealIP := none, reqIp := none,
        remoteAddress := none, contentType := none,
        xSessionId := none, xApiKey := none, xCaptchaToken := none } =
      Decision.next :=
  ⟨(requestValidation_spec 0
      { path := "/api/analyze-repo", method := "POST",
        userAgent := some "Mozilla/5.0 (X11; Linux x86_64) Firefox/121.0",
        xForwardedFor := some "198.51.100.7", xRealIP := none, reqIp := none,
        remoteAddress := none,
        contentType := some "application/json; charset=utf-8",
        xSessionId := none, xApiKey := none, xCaptchaToken := none } []).1
      (by decide) (by decide),
    (requestValidation_spec 0
      { path := "/api/analyze-repo", method := "POST",
        userAgent := some "Mozilla/5.0 (X11; Linux x86_64) Firefox/121.0",
        xForwardedFor := some "198.51.100.7", xRealIP := none, reqIp := none,
        remoteAddress := none, contentType := some "text/plain",
        xSessionId := none, xApiKey := none, xCaptchaToken := none } []).2.1
      (by decide) (by decide),
    (requestValidation_spec 0
      { path := "/api/analyze-repo", method := "GET",
        userAgent := some "Mozilla/5.0 (X11; Linux x86_64) Firefox/121.0",
        xForwardedFor := some "198.51.100.7", xRealIP := none, reqIp := none,
        remoteAddress := none, contentType := none,
        xSessionId := none, xApiKey := none, xCaptchaToken := none } []).2.2
      (by decide)⟩

end Nexus
